import Mathlib

/-!
Shallow embedding of the real-time quote distribution and cache-aside
subsystem of opa-quotes-api, together with proofs about the claims of its
specification.

The embedding covers:
* the websocket ticker filter and relay fan-out decision
  (`src/opa_quotes_api/routers/websocket.py`),
* the `ConnectionManager` registry (same file),
* the Redis-backed `CacheService` (`services/cache_service.py`) over a
  TTL key-value store,
* the `QuoteRepository` read path (`repository/quote_repository.py`),
* the `QuoteService` latest/batch reads with capacity enrichment
  (`services/quote_service.py`),
* the HTTP router outcome for the latest-quote endpoint
  (`routers/quotes.py`), and
* the `CapacitySubscriber` enrichment listener
  (`services/capacity_subscriber.py`).

Modelling conventions: Python strings are Lean `String`s; `str.upper` and
`str.strip` are modelled for the ASCII characters that tickers and cache
keys consist of; serialized JSON payloads held in the cache are modelled
symbolically by the inductive `CVal` (one constructor per serialized shape
the code produces, plus `junk` for bytes that parse as neither), so that
`model_validate_json` / `json.loads` become total functions returning
`Option`; every Python `try/except` becomes an explicit sum: operations
that can raise take their outcome as an input (`Except`, an error
constructor, or a `Bool` success flag), and the embedded function maps the
raising outcome to whatever the `except` handler does.
-/

namespace OpaQuotes

/-! ## ASCII string primitives (Python `str.upper`, `str.strip`, `str.split`) -/

/-- The lowercase-to-uppercase table of ASCII letters.  Python's
`str.upper` maps every character through full Unicode case mapping; the
tickers, filters and cache keys of this repository are ASCII, so the
embedding models the ASCII letter range and leaves every other character
fixed. -/
def upMap : List (Char × Char) :=
  [('a','A'), ('b','B'), ('c','C'), ('d','D'), ('e','E'), ('f','F'), ('g','G'),
   ('h','H'), ('i','I'), ('j','J'), ('k','K'), ('l','L'), ('m','M'), ('n','N'),
   ('o','O'), ('p','P'), ('q','Q'), ('r','R'), ('s','S'), ('t','T'), ('u','U'),
   ('v','V'), ('w','W'), ('x','X'), ('y','Y'), ('z','Z')]

/-- Uppercase one character (ASCII fragment of Python `str.upper`). -/
def upChar (c : Char) : Char :=
  match upMap.find? (fun p => p.1 == c) with
  | some p => p.2
  | none => c

/-- Python `s.upper()` (ASCII fragment). -/
def upStr (s : String) : String := ⟨s.data.map upChar⟩

/-- Python `str.strip` whitespace set (ASCII fragment). -/
def isPySpace (c : Char) : Bool :=
  c == ' ' || c == '\t' || c == '\n' || c == '\x0d' || c == '\x0b' || c == '\x0c'

/-- Python `s.strip()`: drop leading and trailing whitespace. -/
def pyStrip (s : String) : String :=
  ⟨((s.data.dropWhile isPySpace).reverse.dropWhile isPySpace).reverse⟩

/-- Python `s.split(",")` on the character list: split at every comma;
the empty string yields `[""]`, adjacent commas yield empty pieces. -/
def splitCommaAux : List Char → List Char → List (List Char)
  | [], acc => [acc.reverse]
  | c :: cs, acc =>
    if c = ',' then acc.reverse :: splitCommaAux cs []
    else splitCommaAux cs (c :: acc)

/-- Python `s.split(",")`. -/
def pySplitComma (s : String) : List String :=
  (splitCommaAux s.data []).map fun l => ⟨l⟩

/-! ## Websocket ticker filter and relay decision (`routers/websocket.py`) -/

/-- `websocket_endpoint`, lines 117-120: parse the optional `tickers`
query parameter into the connection's filter.
`if tickers:` is false for `None` and for the empty string; otherwise
`set(t.strip().upper() for t in tickers.split(",") if t.strip())`.
The Python `set` is modelled as a list; only membership is ever used. -/
def parseTickerFilter (tickers : Option String) : List String :=
  match tickers with
  | none => []
  | some s =>
    if s = "" then []
    else (pySplitComma s).filterMap fun t =>
      if pyStrip t = "" then none else some (upStr (pyStrip t))

/-- `websocket_endpoint`, line 123: `accept_all = not ticker_filter or "*" in ticker_filter`. -/
def acceptAll (f : List String) : Bool := f.isEmpty || f.contains "*"

/-- One message popped from the `quotes.realtime` pub/sub channel, after
`json.loads`: either the payload was malformed JSON
(`json.JSONDecodeError`), or it parsed to an object whose `ticker` field
may be absent. -/
inductive QuoteMsg where
  | malformed
  | obj (ticker : Option String)
deriving DecidableEq

/-- `websocket_endpoint`, lines 139-157: whether the inbound message is
delivered (i.e. `manager.send_message` is invoked) for a connection with
the given parsed filter.  A malformed payload raises
`json.JSONDecodeError`, which is caught and the loop continues; otherwise
`ticker = data.get("ticker", "").upper()` and the message is sent iff
`accept_all or ticker in ticker_filter`. -/
def deliverDecision (f : List String) (m : QuoteMsg) : Bool :=
  match m with
  | .malformed => false
  | .obj t? => acceptAll f || f.contains (upStr (t?.getD ""))

/-- The relay loop over a finite prefix of the channel: each message is
handled independently (exceptions are caught with `continue`), and the
result is the subsequence of messages delivered to a connection with
filter `f`. -/
def relayLoop (f : List String) (msgs : List QuoteMsg) : List QuoteMsg :=
  msgs.filter (deliverDecision f)

/-- Modelled from the spec's words, for comparison with `deliverDecision`
(claim C1): delivery occurs iff the filter is empty, contains `*`, or
contains the event symbol, where both the filter entries and the event
symbol are compared case-insensitively after trimming whitespace. -/
def specC1Delivery (f : List String) (s : String) : Bool :=
  let fNorm := f.map fun e => upStr (pyStrip e)
  fNorm.isEmpty || fNorm.contains "*" || fNorm.contains (upStr (pyStrip s))

/-! ## ConnectionManager (`routers/websocket.py` lines 22-72) -/

/-- A borrowed websocket transport handle.  `sendJsonOk` records whether
an `await websocket.send_json(...)` on this handle succeeds or raises. -/
structure WSHandle where
  hid : Nat
  sendJsonOk : Bool
deriving DecidableEq

/-- `ConnectionManager.active_connections`: client-id keyed map, modelled
as an association list (Python `dict` keys are unique; only
membership, indexing and `pop` are used). -/
abbrev ConnMap := List (String × WSHandle)

/-- A raised Python exception escaping to the caller. -/
abbrev PyResult (α : Type) := Except String α

/-- `dict.pop(key)`: raises `KeyError` when absent. -/
def dictPop (m : ConnMap) (cid : String) : PyResult ConnMap :=
  if (m.lookup cid).isSome then .ok (m.eraseP (fun p => p.1 == cid))
  else .error "KeyError"

/-- `ConnectionManager.disconnect`, lines 47-56:
`if client_id in self.active_connections: self.active_connections.pop(client_id)`. -/
def ConnectionManager.disconnect (m : ConnMap) (cid : String) : PyResult ConnMap :=
  if (m.lookup cid).isSome then dictPop m cid else .ok m

/-- `ConnectionManager.send_message`, lines 58-72: when the id is
registered, try `send_json`; any exception is caught and the connection is
disconnected.  An unknown id is a silent no-op. -/
def ConnectionManager.sendMessage (m : ConnMap) (cid : String) : PyResult ConnMap :=
  match m.lookup cid with
  | some ws =>
    if ws.sendJsonOk then .ok m
    else ConnectionManager.disconnect m cid
  | none => .ok m

/-! ## The external Redis key-value store with TTL -/

/-- The external Redis store: key to (value, absolute expiry instant).
Time is an abstract `Nat` tick counted in seconds. -/
def RedisStore (α : Type) : Type := String → Option (α × Nat)

/-- `SETEX key ttl value`: store the value, expiring `ttl` seconds from
`now`. -/
def Redis.setex {α : Type} (st : RedisStore α) (now : Nat) (k : String)
    (ttl : Nat) (v : α) : RedisStore α :=
  fun k' => if k' = k then some (v, now + ttl) else st k'

/-- `GET key` at instant `now`: an entry past its expiry is absent
(expiry is store-enforced). -/
def Redis.getAt {α : Type} (st : RedisStore α) (now : Nat) (k : String) : Option α :=
  match st k with
  | some (v, exp) => if now < exp then some v else none
  | none => none

/-! ## CacheService (`services/cache_service.py`) -/

/-- The wire-level outcome of `await self.redis.get(key)` as seen inside
`CacheService.get`: a reply (absent key, or a value that decodes to a
string), nonempty bytes on which `.decode("utf-8")` raises, or a
transport error raised by the call itself. -/
inductive RedisGetReply where
  | reply (v : Option String)
  | badBytes
  | exn
deriving DecidableEq

/-- `CacheService.get`, lines 30-50: `if value:` is falsy for `None` and
for the empty string; a decode failure or a transport error is caught and
yields `None`.  No exception ever escapes to the caller. -/
def CacheService.get (r : RedisGetReply) : Option String :=
  match r with
  | .reply none => none
  | .reply (some v) => if v = "" then none else some v
  | .badBytes => none
  | .exn => none

/-- `CacheService.get` against a healthy backend with TTL semantics. -/
def CacheService.getAt (st : RedisStore String) (now : Nat) (k : String) : Option String :=
  CacheService.get (.reply (Redis.getAt st now k))

/-- `CacheService.set`, lines 52-76: `ttl = ttl or self.default_ttl`
(Python `or`: both `None` and `0` fall back to the default of 5 seconds),
then `SETEX`; an exception is caught and reported as `False`.
`healthy` is whether the backend call succeeds. -/
def CacheService.set (st : RedisStore String) (now : Nat) (k v : String)
    (ttl : Option Nat) (healthy : Bool) : RedisStore String × Bool :=
  let t := match ttl with
    | none => 5
    | some n => if n = 0 then 5 else n
  if healthy then (Redis.setex st now k t v, true) else (st, false)

/-- `CacheService.make_latest_key`: `f"quote:{ticker.upper()}:latest"`. -/
def CacheService.makeLatestKey (ticker : String) : String :=
  "quote:" ++ upStr ticker ++ ":latest"

/-! ## Data model (`schemas.py`, `repository/models.py`) -/

/-- `schemas.CapacityContext` (also the payload shape written by the
capacity subscriber): numeric scores are modelled as rationals, the
timestamp and model version as strings. -/
structure Capacity where
  score : ℚ
  confidence : ℚ
  last_updated : String
  model_version : String
deriving DecidableEq

/-- `schemas.QuoteResponse`.  The price fields other than `close` do not
influence any control flow and are elided; `capacity_context` defaults to
`none` exactly as in the schema. -/
structure Quote where
  ticker : String
  timestamp : Nat
  close : ℚ
  volume : Nat
  capacity_context : Option Capacity := none
deriving DecidableEq

/-- A row of the `quotes.real_time` table as declared by
`repository/models.py` (columns beyond the representative
`ticker, timestamp, price, volume` elided).  Note the timestamp column is
named `timestamp`; the model has **no** `time` attribute. -/
structure Row where
  ticker : String
  timestamp : Nat
  price : ℚ
  volume : Nat
deriving DecidableEq

/-- Serialized payloads held in the external cache, modelled
symbolically: a `QuoteResponse` dumped by `model_dump_json`, a capacity
payload dumped by `json.dumps`, or cached bytes that parse as neither. -/
inductive CVal where
  | quoteJson (q : Quote)
  | capJson (c : Capacity)
  | junk
deriving DecidableEq

/-- `QuoteResponse.model_validate_json`: succeeds exactly on a serialized
`QuoteResponse`; on anything else pydantic raises (which every caller
catches). -/
def parseQuoteJson : CVal → Option Quote
  | .quoteJson q => some q
  | _ => none

/-- `json.loads` + `CapacityContext(**capacity_dict)`: succeeds exactly on
a serialized capacity payload. -/
def parseCapJson : CVal → Option Capacity
  | .capJson c => some c
  | _ => none

/-! ## QuoteRepository (`repository/quote_repository.py`)

The ORM read queries are dead code: `repository/models.py` declares the
timestamp column of `RealTimeQuote` as `timestamp` and defines no `time`
attribute, yet `get_latest` orders by `RealTimeQuote.time` (line 42) and
`get_batch` builds `func.max(RealTimeQuote.time)` and joins on
`RealTimeQuote.time` (lines 170, 183).  On a SQLAlchemy declarative
class, accessing the nonexistent attribute raises `AttributeError` while
the query object is being constructed — inside the `try`, before any
database I/O — and the blanket `except Exception` handlers convert this
into the not-found result for every input, regardless of the session and
of the table contents. -/

/-- `QuoteRepository.get_latest`, lines 28-68: the query construction at
line 42 raises `AttributeError` on `RealTimeQuote.time` and the
`except Exception` at lines 66-68 returns `None`; the database outcome is
never consulted, so the result is `None` for every input. -/
def QuoteRepository.getLatest (_db : Except Unit (List Row)) (_ticker : String) : Option Quote :=
  none

/-- `QuoteRepository.get_batch`, lines 152-209: the subquery construction
at line 170 raises `AttributeError` on `RealTimeQuote.time` and the
`except Exception` at lines 207-209 returns `[]`; the database outcome is
never consulted, so the result is `[]` for every input. -/
def QuoteRepository.getBatch (_db : Except Unit (List Row)) (_tickers : List String) : List Quote :=
  []

/-! ## QuoteService (`services/quote_service.py`) -/

/-- The environment of one read: `cacheGet k` is the value returned by
`await self.cache.get(k)` (already `None` on a cache miss, on a decode
failure, or on a transport error, per `CacheService.get`), and `db` is
the database interaction outcome. -/
structure ReadEnv where
  cacheGet : String → Option CVal
  db : Except Unit (List Row)

/-- `QuoteService._enrich_with_capacity`, lines 229-249: look up
`capacity:score:{quote.ticker}`; on a hit, parse and attach the capacity
context; any failure in the step (no data, malformed record — the cache
layer already absorbed transport errors into `None`) leaves the quote
unchanged. -/
def QuoteService.enrichWithCapacity (env : ReadEnv) (q : Quote) : Quote :=
  match env.cacheGet ("capacity:score:" ++ q.ticker) with
  | some v =>
    match parseCapJson v with
    | some c => { q with capacity_context := some c }
    | none => q
  | none => q

/-- The primary result of `QuoteService.get_latest` before the enrichment
step: the cached quote when the cached payload deserializes, otherwise
(miss or deserialization failure) the repository result for the
uppercased ticker. -/
def QuoteService.primaryLatest (env : ReadEnv) (ticker : String) : Option Quote :=
  match env.cacheGet (CacheService.makeLatestKey (upStr ticker)) with
  | some v =>
    match parseQuoteJson v with
    | some q => some q
    | none => QuoteRepository.getLatest env.db (upStr ticker)
  | none => QuoteRepository.getLatest env.db (upStr ticker)

/-- The database-fallback arm of `QuoteService.get_latest`, lines 64-78:
on a repository hit the quote is enriched, then cached under the latest
key with the default 5-second TTL; the returned pair is (response,
requested cache write). -/
def QuoteService.getLatestFromDb (env : ReadEnv) (tU : String) :
    Option Quote × Option (String × CVal × Nat) :=
  match QuoteRepository.getLatest env.db tU with
  | some q0 =>
    let q := QuoteService.enrichWithCapacity env q0
    (some q, some (CacheService.makeLatestKey tU, CVal.quoteJson q, 5))
  | none => (none, none)

/-- `QuoteService.get_latest`, lines 39-78: uppercase the ticker, try the
cache; on a deserializable hit enrich and return (no cache write); on a
miss or a deserialization failure fall through to the database arm. -/
def QuoteService.getLatest (env : ReadEnv) (ticker : String) :
    Option Quote × Option (String × CVal × Nat) :=
  let tU := upStr ticker
  match env.cacheGet (CacheService.makeLatestKey tU) with
  | some v =>
    match parseQuoteJson v with
    | some q => (some (QuoteService.enrichWithCapacity env q), none)
    | none => QuoteService.getLatestFromDb env tU
  | none => QuoteService.getLatestFromDb env tU

/-- `schemas.BatchQuoteItem`. -/
structure BatchItem where
  ticker : String
  quote : Option Quote
  error : Option String
deriving DecidableEq

/-- `schemas.BatchResponse`. -/
structure BatchResponse where
  quotes : List BatchItem
  total : Nat
  successful : Nat
  failed : Nat
deriving DecidableEq

/-- The loop body of `QuoteService.get_batch`, lines 162-189: for each
normalized ticker, when it is among the found tickers take the first
found quote with that ticker (`next(q for q in found_quotes ...)`),
enrich it and count a success; otherwise append a per-item
"Ticker not found" failure.  The accumulator is (items, successful,
failed).  The per-item best-effort cache write does not influence the
response and is not modelled. -/
def QuoteService.batchStep (env : ReadEnv) (found : List Quote)
    (acc : List BatchItem × Nat × Nat) (t : String) : List BatchItem × Nat × Nat :=
  match found.find? (fun q => q.ticker == t) with
  | some q0 =>
    (acc.1 ++ [{ ticker := t, quote := some (QuoteService.enrichWithCapacity env q0),
                 error := none }], acc.2.1 + 1, acc.2.2)
  | none =>
    (acc.1 ++ [{ ticker := t, quote := none, error := some "Ticker not found" }],
     acc.2.1, acc.2.2 + 1)

/-- `QuoteService.get_batch`, lines 135-196. -/
def QuoteService.getBatch (env : ReadEnv) (reqTickers : List String) : BatchResponse :=
  let tickers := reqTickers.map upStr
  let found := QuoteRepository.getBatch env.db tickers
  let r := tickers.foldl (QuoteService.batchStep env found) ([], 0, 0)
  { quotes := r.1, total := tickers.length, successful := r.2.1, failed := r.2.2 }

/-! ## HTTP router (`routers/quotes.py`) -/

/-- Outcome of `GET /quotes/{ticker}/latest` at the router. -/
inductive HttpOutcome where
  | ok (q : Quote)
  | notFound (detail : String)
deriving DecidableEq

/-- `get_latest_quote`, lines 32-57: `HTTPException(404)` whenever the
service returns no quote. -/
def Routers.getLatestQuote (env : ReadEnv) (ticker : String) : HttpOutcome :=
  match (QuoteService.getLatest env ticker).1 with
  | some q => .ok q
  | none => .notFound ("Ticker " ++ ticker ++ " not found")

/-! ## CapacitySubscriber (`services/capacity_subscriber.py`) -/

/-- One message popped from the `capacity.scoring` channel after
`json.loads`: malformed JSON, or an object in which each required field
may be absent.  (Field values are modelled at their expected types; the
presence check `field in data` is field presence.) -/
structure CapMsgFields where
  ticker : Option String
  score : Option ℚ
  confidence : Option ℚ
  timestamp : Option String
  model_version : Option String
deriving DecidableEq

/-- A `capacity.scoring` message. -/
inductive CapacityMsg where
  | malformed
  | obj (m : CapMsgFields)
deriving DecidableEq

/-- A cache write requested by the subscriber: key, TTL seconds,
payload. -/
structure CacheWrite where
  key : String
  ttl : Nat
  payload : CVal
deriving DecidableEq

/-- `CapacitySubscriber._process_message`, lines 92-135: malformed JSON
is dropped (`json.JSONDecodeError` caught); a message missing any of the
required fields `ticker, score, confidence, timestamp, model_version` is
dropped; otherwise an enrichment record is written under
`capacity:score:{ticker}` — the ticker exactly as received — with the
1-hour TTL `self.cache_ttl = 3600`. -/
def CapacitySubscriber.processMessage : CapacityMsg → Option CacheWrite
  | .malformed => none
  | .obj m =>
    match m.ticker, m.score, m.confidence, m.timestamp, m.model_version with
    | some tk, some sc, some cf, some ts, some mv =>
      some { key := "capacity:score:" ++ tk, ttl := 3600,
             payload := .capJson { score := sc, confidence := cf,
                                   last_updated := ts, model_version := mv } }
    | _, _, _, _, _ => none

/-- Apply a subscriber cache write to the external store (`SETEX`). -/
def applyWrite (st : RedisStore CVal) (now : Nat) (w : CacheWrite) : RedisStore CVal :=
  Redis.setex st now w.key w.ttl w.payload

/-! ## Concrete fixtures used by witnesses and counterexamples -/

/-- A concrete database row for AAPL (present in the table, yet never
reachable through the dead repository queries). -/
def rowAAPL : Row := { ticker := "AAPL", timestamp := 1, price := 150, volume := 1000 }

/-- A concrete capacity record with score 0.85. -/
def capEx : Capacity :=
  { score := mkRat 17 20, confidence := mkRat 9 10,
    last_updated := "2026-02-10T13:00:00Z", model_version := "1.0.0" }

/-- A plain AAPL quote with no capacity context, as a cached
`QuoteResponse` payload would deserialize. -/
def quoteBare : Quote :=
  { ticker := "AAPL", timestamp := 1, close := 150, volume := 1000 }

/-- The AAPL quote carrying the `capEx` capacity context. -/
def quoteEnrichedEx : Quote :=
  { ticker := "AAPL", timestamp := 1, close := 150, volume := 1000,
    capacity_context := some capEx }

/-- A cache-hit environment: the latest-quote cache holds a plain AAPL
payload and the capacity record for AAPL is cached. -/
def envCacheHit : ReadEnv :=
  { cacheGet := fun k =>
      if k = "quote:AAPL:latest" then some (.quoteJson quoteBare)
      else if k = "capacity:score:AAPL" then some (.capJson capEx)
      else none,
    db := .error () }

/-- A stale-context environment: the latest-quote cache holds a
`QuoteResponse` payload that embeds a capacity context (the schema
declares `capacity_context` as an optional field, so such a payload
deserializes), while no capacity record is cached. -/
def envStaleCtx : ReadEnv :=
  { cacheGet := fun k =>
      if k = "quote:AAPL:latest" then some (.quoteJson quoteEnrichedEx) else none,
    db := .ok [rowAAPL] }

/-- A lowercase-ticker quote as a cached `QuoteResponse` payload would
deserialize (the payload's `ticker` field is taken verbatim). -/
def quoteLower : Quote :=
  { ticker := "aapl", timestamp := 1, close := 150, volume := 1000 }

/-- A mixed-case environment: the latest-quote cache entry for the AAPL
key holds a payload whose `ticker` field is lowercase `aapl`, and the
capacity record written by the subscriber for ticker `aapl` is cached
under `capacity:score:aapl`. -/
def envMixedCase : ReadEnv :=
  { cacheGet := fun k =>
      if k = "quote:AAPL:latest" then some (.quoteJson quoteLower)
      else if k = "capacity:score:aapl" then some (.capJson capEx)
      else none,
    db := .error () }

/-- An environment in which every cache read misses. -/
def envColdCache (db : Except Unit (List Row)) : ReadEnv :=
  { cacheGet := fun _ => none, db := db }

/-- A registry holding one connection. -/
def connEx : ConnMap := [("client-a", { hid := 1, sendJsonOk := true })]

/-- An empty external string store. -/
def emptyStrStore : RedisStore String := fun _ => none

/-- An empty external store of serialized payloads. -/
def emptyCValStore : RedisStore CVal := fun _ => none

/-- A capacity message missing its required `ticker` field. -/
def capMsgMissing : CapMsgFields :=
  { ticker := none, score := some (mkRat 17 20), confidence := some (mkRat 9 10),
    timestamp := some "2026-02-10T13:00:00Z", model_version := some "1.0.0" }

/-- A first subscriber cache write for AAPL. -/
def writeEx1 : CacheWrite :=
  { key := "capacity:score:AAPL", ttl := 3600, payload := .capJson capEx }

/-- A second subscriber cache write for AAPL with a newer score. -/
def writeEx2 : CacheWrite :=
  { key := "capacity:score:AAPL", ttl := 3600,
    payload := .capJson { score := mkRat 1 2, confidence := mkRat 1 2,
                          last_updated := "2026-02-10T14:00:00Z",
                          model_version := "1.0.1" } }

/-! ## Helper lemmas -/

theorem upChar_idem (c : Char) : upChar (upChar c) = upChar c := by
  have key : ∀ q ∈ upMap, upMap.find? (fun r => r.1 == q.2) = none := by decide
  unfold upChar
  cases h : upMap.find? (fun p => p.1 == c) with
  | none => simp [h]
  | some p =>
    have hp : p ∈ upMap := List.mem_of_find?_eq_some h
    simp [key p hp]

theorem upStr_idem (s : String) : upStr (upStr s) = upStr s := by
  show (⟨(s.data.map upChar).map upChar⟩ : String) = ⟨s.data.map upChar⟩
  rw [List.map_map]
  congr 1
  exact List.map_congr_left fun c _ => upChar_idem c

theorem upStr_eq_empty_iff (s : String) : upStr s = "" ↔ s = "" := by
  obtain ⟨l⟩ := s
  constructor
  · intro h
    have hd : List.map upChar l = ([] : List Char) := congrArg String.data h
    rw [List.map_eq_nil_iff] at hd
    exact congrArg String.mk hd
  · intro h
    rw [show (⟨l⟩ : String) = "" from h]
    rfl

theorem string_append_cancel_left {a b c : String} (h : a ++ b = a ++ c) : b = c := by
  have hd : a.data ++ b.data = a.data ++ c.data := by
    have h1 := congrArg String.data h
    rwa [String.data_append, String.data_append] at h1
  obtain ⟨bl⟩ := b
  obtain ⟨cl⟩ := c
  exact congrArg String.mk (List.append_cancel_left hd)

theorem mem_parseTickerFilter_ne_empty {ts : Option String} {e : String}
    (he : e ∈ parseTickerFilter ts) : e ≠ "" := by
  match ts with
  | none => simp [parseTickerFilter] at he
  | some s =>
    rw [parseTickerFilter] at he
    by_cases hs : s = ""
    · simp [hs] at he
    · simp only [if_neg hs, List.mem_filterMap] at he
      obtain ⟨t, _, ht⟩ := he
      by_cases hp : pyStrip t = ""
      · simp [hp] at ht
      · simp only [if_neg hp, Option.some.injEq] at ht
        intro hcon
        rw [← ht] at hcon
        exact hp ((upStr_eq_empty_iff (pyStrip t)).mp hcon)

/-! ## Claim C1 -/

/-- C1, counterexample to the claim as stated: for the parsed filter of
`tickers=AAPL` and an event whose symbol is `" aapl"`, the claim's
comparison (both sides trimmed and case-folded) says the event is
delivered, but the code uppercases the event symbol **without trimming
it** (`data.get("ticker", "").upper()`), so `" AAPL"` is not in the
filter and the event is not delivered. -/
theorem C1_counterexample :
    specC1Delivery (parseTickerFilter (some "AAPL")) " aapl" = true ∧
    deliverDecision (parseTickerFilter (some "AAPL")) (.obj (some " aapl")) = false := by
  exact ⟨by decide, by decide⟩

/-- C1 (amended): for a connection whose filter was parsed from the
`tickers` query parameter and an event with symbol `s`, the event is
delivered iff the parsed filter is empty, contains `*`, or contains the
**uppercased but untrimmed** event symbol; the filter entries themselves
are trimmed and uppercased by the parser. -/
theorem C1_filter_delivery (ts : Option String) (s : String) :
    deliverDecision (parseTickerFilter ts) (.obj (some s)) = true ↔
      (parseTickerFilter ts = [] ∨ "*" ∈ parseTickerFilter ts ∨
       upStr s ∈ parseTickerFilter ts) := by
  simp only [deliverDecision, Option.getD, acceptAll, Bool.or_eq_true,
    List.isEmpty_iff, List.elem_iff, or_assoc]

/-! ## Claim C3 -/

/-- C3, counterexample to the claim as stated: a syntactically valid JSON
message with **no** `ticker` field is not dropped — `data.get("ticker", "")`
yields the empty string, which passes the `accept_all` check, so the
message is delivered to an unfiltered connection (while a filtered
connection does not receive it). -/
theorem C3_counterexample :
    deliverDecision (parseTickerFilter none) (.obj none) = true ∧
    deliverDecision (parseTickerFilter (some "MSFT")) (.obj none) = false := by
  exact ⟨by decide, by decide⟩

/-- C3 (amended): a malformed-JSON message is dropped (delivered to no
connection) and does not stop the relay loop, which continues with the
remaining messages unchanged; a message missing the `ticker` field is
treated as having the empty-string symbol and is therefore delivered to a
connection iff that connection's filter means "all symbols". -/
theorem C3_malformed_dropped (ts : Option String) (msgs : List QuoteMsg) :
    deliverDecision (parseTickerFilter ts) .malformed = false ∧
    relayLoop (parseTickerFilter ts) (QuoteMsg.malformed :: msgs) =
      relayLoop (parseTickerFilter ts) msgs ∧
    (deliverDecision (parseTickerFilter ts) (.obj none) = true ↔
      acceptAll (parseTickerFilter ts) = true) := by
  refine ⟨rfl, ?_, ?_⟩
  · simp [relayLoop, deliverDecision]
  · show (acceptAll (parseTickerFilter ts) ||
      (parseTickerFilter ts).contains (upStr "")) = true ↔ _
    constructor
    · intro h
      rcases Bool.or_eq_true_iff.mp h with hA | hC
      · exact hA
      · exact absurd (List.elem_iff.mp hC)
          (fun hm => mem_parseTickerFilter_ne_empty hm rfl)
    · intro h
      simp [h]

/-! ## Claim C8 -/

/-- C8: for a connection id not present in the registry,
`ConnectionManager.disconnect` is a no-op that raises nothing (the
guarded `dict.pop` is never reached) and `ConnectionManager.send_message`
is a safe no-op that raises nothing into the relay loop; the registry map
is unchanged in both cases. -/
theorem C8_unknown_id_noop (m : ConnMap) (cid : String) (h : m.lookup cid = none) :
    ConnectionManager.disconnect m cid = .ok m ∧
    ConnectionManager.sendMessage m cid = .ok m := by
  constructor
  · simp [ConnectionManager.disconnect, h]
  · simp [ConnectionManager.sendMessage, h]

/-- C8, witness: a concrete registry with one connection and an unknown
id. -/
theorem C8_witness :
    connEx.lookup "client-b" = none ∧
    (ConnectionManager.disconnect connEx "client-b" = .ok connEx ∧
     ConnectionManager.sendMessage connEx "client-b" = .ok connEx) :=
  ⟨rfl, C8_unknown_id_noop connEx "client-b" rfl⟩

theorem getLatest_fst (env : ReadEnv) (t : String) :
    (QuoteService.getLatest env t).1 =
      (QuoteService.primaryLatest env t).map (QuoteService.enrichWithCapacity env) := by
  cases h : env.cacheGet (CacheService.makeLatestKey (upStr t)) with
  | none =>
    cases hr : QuoteRepository.getLatest env.db (upStr t) with
    | none => simp [QuoteService.getLatest, QuoteService.primaryLatest,
        QuoteService.getLatestFromDb, h, hr]
    | some q0 => simp [QuoteService.getLatest, QuoteService.primaryLatest,
        QuoteService.getLatestFromDb, h, hr]
  | some v =>
    cases hv : parseQuoteJson v with
    | none =>
      cases hr : QuoteRepository.getLatest env.db (upStr t) with
      | none => simp [QuoteService.getLatest, QuoteService.primaryLatest,
          QuoteService.getLatestFromDb, h, hv, hr]
      | some q0 => simp [QuoteService.getLatest, QuoteService.primaryLatest,
          QuoteService.getLatestFromDb, h, hv, hr]
    | some q => simp [QuoteService.getLatest, QuoteService.primaryLatest, h, hv]

/-! ## Claim C2 -/

/-- C2: evaluation of the router at the failing input.  With the cache
cold, an origin-store failure during `QuoteRepository.get_latest` (the
`except Exception: return None` at lines 66-68) produces exactly the same
`404 Ticker {t} not found` outcome as a genuine absence of the symbol at
origin — the retrievable-error category required by the spec does not
exist in the code. -/
theorem C2_db_error_conflated_with_not_found (t : String) :
    Routers.getLatestQuote (envColdCache (.error ())) t =
      .notFound ("Ticker " ++ t ++ " not found") ∧
    Routers.getLatestQuote (envColdCache (.ok [])) t =
      .notFound ("Ticker " ++ t ++ " not found") := by
  exact ⟨rfl, rfl⟩

/-! ## Claim C6 -/

/-- C6: `CacheService.get` returns absent (`None`) on a cache miss, on a
deserialization (utf-8 decode) failure of the cached value, and on a
transport error to the backend — also on the falsy empty string — and the
`get_latest` caller treats a `None` (and likewise a cached payload that
fails `model_validate_json`) identically: the read falls through to the
origin arm; no cache error is ever raised to the caller. -/
theorem C6_cache_errors_degrade_to_miss :
    (CacheService.get (.reply none) = none ∧
     CacheService.get (.reply (some "")) = none ∧
     CacheService.get .badBytes = none ∧
     CacheService.get .exn = none) ∧
    (∀ (env : ReadEnv) (t : String),
      env.cacheGet (CacheService.makeLatestKey (upStr t)) = none →
        QuoteService.getLatest env t = QuoteService.getLatestFromDb env (upStr t)) ∧
    (∀ (env : ReadEnv) (t : String),
      env.cacheGet (CacheService.makeLatestKey (upStr t)) = some .junk →
        QuoteService.getLatest env t = QuoteService.getLatestFromDb env (upStr t)) := by
  refine ⟨⟨rfl, rfl, rfl, rfl⟩, ?_, ?_⟩
  · intro env t h
    simp [QuoteService.getLatest, h]
  · intro env t h
    simp [QuoteService.getLatest, h, parseQuoteJson]

/-- C6, witness: a concrete cold-cache environment falls through to the
origin arm. -/
theorem C6_witness :
    (envColdCache (.ok [rowAAPL])).cacheGet
        (CacheService.makeLatestKey (upStr "AAPL")) = none ∧
    QuoteService.getLatest (envColdCache (.ok [rowAAPL])) "AAPL" =
      QuoteService.getLatestFromDb (envColdCache (.ok [rowAAPL])) (upStr "AAPL") :=
  ⟨rfl, C6_cache_errors_degrade_to_miss.2.1 (envColdCache (.ok [rowAAPL])) "AAPL" rfl⟩

/-! ## Claim C7 -/

/-- C7, counterexample to the claim as stated: for the empty-string value
the claim fails — `set("quote:AAPL:latest", "", 5)` succeeds, but the
immediately following `get` returns absent, because `CacheService.get`
guards the hit path with the falsy `if value:`. -/
theorem C7_counterexample :
    (CacheService.set emptyStrStore 0 "quote:AAPL:latest" "" (some 5) true).2 = true ∧
    CacheService.getAt
      (CacheService.set emptyStrStore 0 "quote:AAPL:latest" "" (some 5) true).1
      0 "quote:AAPL:latest" = none := by
  exact ⟨rfl, rfl⟩

/-- C7 (amended): for every key, **non-empty** value and positive ttl, a
successful `set(k, v, ttl)` followed by `get(k)` returns `v` while the
ttl has not elapsed, and absent afterwards. -/
theorem C7_set_get_roundtrip (st : RedisStore String) (now ttl readTime : Nat)
    (k v : String) (httl : 0 < ttl) (hv : v ≠ "") :
    (CacheService.set st now k v (some ttl) true).2 = true ∧
    (readTime < now + ttl →
      CacheService.getAt (CacheService.set st now k v (some ttl) true).1
        readTime k = some v) ∧
    (now + ttl ≤ readTime →
      CacheService.getAt (CacheService.set st now k v (some ttl) true).1
        readTime k = none) := by
  have hne : ttl ≠ 0 := Nat.pos_iff_ne_zero.mp httl
  refine ⟨by simp [CacheService.set], ?_, ?_⟩
  · intro hr
    simp [CacheService.set, CacheService.getAt, CacheService.get,
      Redis.setex, Redis.getAt, hne, hr, hv]
  · intro hr
    simp [CacheService.set, CacheService.getAt, CacheService.get,
      Redis.setex, Redis.getAt, hne, Nat.not_lt.mpr hr]

/-- C7, witness: a concrete round-trip at ttl 5, read fresh at tick 4 and
expired at tick 5. -/
theorem C7_witness :
    (0 : Nat) < 5 ∧ ("x" : String) ≠ "" ∧
    CacheService.getAt
      (CacheService.set emptyStrStore 0 "quote:AAPL:latest" "x" (some 5) true).1
      4 "quote:AAPL:latest" = some "x" ∧
    CacheService.getAt
      (CacheService.set emptyStrStore 0 "quote:AAPL:latest" "x" (some 5) true).1
      5 "quote:AAPL:latest" = none :=
  ⟨by decide, by decide,
   (C7_set_get_roundtrip emptyStrStore 0 5 4 "quote:AAPL:latest" "x"
     (by decide) (by decide)).2.1 (by decide),
   (C7_set_get_roundtrip emptyStrStore 0 5 5 "quote:AAPL:latest" "x"
     (by decide) (by decide)).2.2 (by decide)⟩

/-! ## Claim C4 -/

/-- C4, counterexample to the claim as stated: the clause "if no
EnrichmentRecord is cached, the returned quote has capacity_context ==
None" fails.  `schemas.QuoteResponse` declares `capacity_context` as an
optional field, so a cached latest-quote payload that embeds a capacity
context deserializes successfully; a read served from that cache entry
returns the embedded context even though no EnrichmentRecord is cached
(`_enrich_with_capacity` only assigns on a hit, it never clears).  The
latest-quote cache is external state: this program's own cache-population
paths never run (the repository reads are dead, see the
`QuoteRepository` section), so cached payloads are whatever the
deployment put there. -/
theorem C4_counterexample :
    envStaleCtx.cacheGet "capacity:score:AAPL" = none ∧
    (QuoteService.getLatest envStaleCtx "AAPL").1 = some quoteEnrichedEx ∧
    quoteEnrichedEx.capacity_context ≠ none := by
  exact ⟨rfl, by decide, by decide⟩

/-- C4 (amended): whenever a latest-quote read yields a primary result
(the repository arm never yields one — `QuoteRepository.get_latest`
returns `None` for every input — so only a cache hit can), the returned
quote is the primary result passed once through the enrichment step; a
well-formed cached EnrichmentRecord for the quote's ticker is attached
exactly (score 0.85 comes back as 0.85); when no well-formed record is
cached the enrichment step leaves the primary result unchanged and the
read still succeeds — the returned quote then retains whatever
capacity_context the cached payload embedded, which need not be `None`. -/
theorem C4_enrichment_join (env : ReadEnv) (t : String) (q0 : Quote)
    (h : QuoteService.primaryLatest env t = some q0) :
    (QuoteService.getLatest env t).1 = some (QuoteService.enrichWithCapacity env q0) ∧
    (∀ c, env.cacheGet ("capacity:score:" ++ q0.ticker) = some (CVal.capJson c) →
      (QuoteService.enrichWithCapacity env q0).capacity_context = some c) ∧
    ((∀ c, env.cacheGet ("capacity:score:" ++ q0.ticker) ≠ some (CVal.capJson c)) →
      QuoteService.enrichWithCapacity env q0 = q0) ∧
    (∀ (db : Except Unit (List Row)) (s : String),
      QuoteRepository.getLatest db s = none) := by
  refine ⟨?_, ?_, ?_, fun db s => rfl⟩
  · rw [getLatest_fst, h]
    rfl
  · intro c hc
    simp [QuoteService.enrichWithCapacity, hc, parseCapJson]
  · intro hc
    unfold QuoteService.enrichWithCapacity
    cases hv : env.cacheGet ("capacity:score:" ++ q0.ticker) with
    | none => rfl
    | some v =>
      cases v with
      | quoteJson q => rfl
      | capJson c => exact absurd hv (hc c)
      | junk => rfl

/-- C4, witness: a cache-hit read where the capacity record with score
0.85 is cached; the returned quote carries exactly that record. -/
theorem C4_witness :
    QuoteService.primaryLatest envCacheHit "AAPL" = some quoteBare ∧
    (QuoteService.getLatest envCacheHit "AAPL").1 =
      some (QuoteService.enrichWithCapacity envCacheHit quoteBare) ∧
    (QuoteService.enrichWithCapacity envCacheHit quoteBare).capacity_context =
      some capEx :=
  ⟨by decide,
   (C4_enrichment_join envCacheHit "AAPL" quoteBare (by decide)).1,
   (C4_enrichment_join envCacheHit "AAPL" quoteBare (by decide)).2.1
     capEx (by decide)⟩

/-! ## Claim C5 -/

theorem batchLoop_spec (env : ReadEnv) (found : List Quote) (ts : List String) :
    ∀ acc : List BatchItem × Nat × Nat,
      ts.foldl (QuoteService.batchStep env found) acc =
        (acc.1 ++ ts.map (fun t =>
          match found.find? (fun q => q.ticker == t) with
          | some q0 => { ticker := t,
                         quote := some (QuoteService.enrichWithCapacity env q0),
                         error := none }
          | none => { ticker := t, quote := none, error := some "Ticker not found" }),
         acc.2.1 + (ts.filter (fun t =>
           (found.find? (fun q => q.ticker == t)).isSome)).length,
         acc.2.2 + (ts.filter (fun t =>
           (found.find? (fun q => q.ticker == t)).isNone)).length) := by
  induction ts with
  | nil => intro acc; simp
  | cons t rest ih =>
    intro acc
    rw [List.foldl_cons]
    cases hf : found.find? (fun q => q.ticker == t) with
    | some q0 =>
      rw [show QuoteService.batchStep env found acc t =
        (acc.1 ++ [{ ticker := t,
                     quote := some (QuoteService.enrichWithCapacity env q0),
                     error := none }], acc.2.1 + 1, acc.2.2) by
          simp [QuoteService.batchStep, hf]]
      rw [ih]
      simp [List.filter_cons, hf, List.append_assoc]
      omega
    | none =>
      rw [show QuoteService.batchStep env found acc t =
        (acc.1 ++ [{ ticker := t, quote := none,
                     error := some "Ticker not found" }], acc.2.1, acc.2.2 + 1) by
          simp [QuoteService.batchStep, hf]]
      rw [ih]
      simp [List.filter_cons, hf, List.append_assoc]
      omega

/-- C5: evaluation of the batch read at the failing input.  The claim is
right and the code is wrong: `get_batch`'s ORM query is built from the
nonexistent `RealTimeQuote.time`, so `QuoteRepository.get_batch` raises
during query construction and its catch-all returns `[]` for every
input.  Every batch read therefore reports `successful = 0` and
`failed = total`, with every item "Ticker not found" — in particular the
claim's own example `["AAPL", "ZZZZ"]`, with AAPL present in the table,
returns `successful = 0, failed = 2` instead of the specified
`successful = 1, failed = 1`. -/
theorem C5_batch_always_fails :
    (∀ (env : ReadEnv) (reqTickers : List String),
      QuoteRepository.getBatch env.db (reqTickers.map upStr) = [] ∧
      (QuoteService.getBatch env reqTickers).total = reqTickers.length ∧
      (QuoteService.getBatch env reqTickers).successful = 0 ∧
      (QuoteService.getBatch env reqTickers).failed = reqTickers.length ∧
      (QuoteService.getBatch env reqTickers).quotes =
        (reqTickers.map upStr).map (fun t =>
          { ticker := t, quote := none, error := some "Ticker not found" })) ∧
    QuoteService.getBatch (envColdCache (.ok [rowAAPL])) ["AAPL", "ZZZZ"] =
      { quotes := [{ ticker := "AAPL", quote := none, error := some "Ticker not found" },
                   { ticker := "ZZZZ", quote := none, error := some "Ticker not found" }],
        total := 2, successful := 0, failed := 2 } := by
  constructor
  · intro env reqTickers
    have key := batchLoop_spec env
      (QuoteRepository.getBatch env.db (reqTickers.map upStr))
      (reqTickers.map upStr) ([], 0, 0)
    refine ⟨rfl, ?_, ?_, ?_, ?_⟩
    · simp [QuoteService.getBatch]
    · simp only [QuoteService.getBatch]
      rw [key]
      simp [QuoteRepository.getBatch]
    · simp only [QuoteService.getBatch]
      rw [key]
      simp [QuoteRepository.getBatch]
    · simp only [QuoteService.getBatch]
      rw [key]
      simp [QuoteRepository.getBatch]
  · decide

/-! ## Claim C9 -/

/-- C9: a malformed `capacity.scoring` message, or one missing any of the
required fields `ticker, score, confidence, timestamp, model_version`, is
dropped without error and produces no cache write; a complete message
produces exactly one write of an EnrichmentRecord under
`capacity:score:<ticker>` with the 3600-second TTL; and the write is an
idempotent last-write-wins `SETEX` overwrite: repeating a write changes
nothing observable, and of two writes to the same key the second wins. -/
theorem C9_capacity_message_processing :
    (CapacitySubscriber.processMessage .malformed = none) ∧
    (∀ m : CapMsgFields,
      (m.ticker = none ∨ m.score = none ∨ m.confidence = none ∨
       m.timestamp = none ∨ m.model_version = none) →
      CapacitySubscriber.processMessage (.obj m) = none) ∧
    (∀ (tk : String) (sc cf : ℚ) (ts mv : String),
      CapacitySubscriber.processMessage
        (.obj { ticker := some tk, score := some sc, confidence := some cf,
                timestamp := some ts, model_version := some mv }) =
      some { key := "capacity:score:" ++ tk, ttl := 3600,
             payload := .capJson { score := sc, confidence := cf,
                                   last_updated := ts, model_version := mv } }) ∧
    (∀ (st : RedisStore CVal) (now readTime : Nat) (w : CacheWrite) (k : String),
      Redis.getAt (applyWrite (applyWrite st now w) now w) readTime k =
        Redis.getAt (applyWrite st now w) readTime k) ∧
    (∀ (st : RedisStore CVal) (n1 n2 readTime : Nat) (w1 w2 : CacheWrite)
       (k : String), w1.key = w2.key →
      Redis.getAt (applyWrite (applyWrite st n1 w1) n2 w2) readTime k =
        Redis.getAt (applyWrite st n2 w2) readTime k) := by
  refine ⟨rfl, ?_, fun tk sc cf ts mv => rfl, ?_, ?_⟩
  · intro m hm
    obtain ⟨t?, s?, c?, ts?, mv?⟩ := m
    rcases t? <;> rcases s? <;> rcases c? <;> rcases ts? <;> rcases mv? <;>
      simp_all [CapacitySubscriber.processMessage]
  · intro st now readTime w k
    by_cases h : k = w.key <;>
      simp [applyWrite, Redis.setex, Redis.getAt, h]
  · intro st n1 n2 readTime w1 w2 k hkey
    by_cases h : k = w2.key <;>
      simp [applyWrite, Redis.setex, Redis.getAt, hkey, h]

/-- C9, witness: a concrete message missing `ticker` is dropped with no
write, and a concrete second write to `capacity:score:AAPL` supersedes
the first. -/
theorem C9_witness :
    capMsgMissing.ticker = none ∧
    CapacitySubscriber.processMessage (.obj capMsgMissing) = none ∧
    writeEx1.key = writeEx2.key ∧
    Redis.getAt (applyWrite (applyWrite emptyCValStore 0 writeEx1) 1 writeEx2)
        2 "capacity:score:AAPL" =
      Redis.getAt (applyWrite emptyCValStore 1 writeEx2) 2 "capacity:score:AAPL" :=
  ⟨rfl, C9_capacity_message_processing.2.1 capMsgMissing (Or.inl rfl), rfl,
   C9_capacity_message_processing.2.2.2.2 emptyCValStore 0 1 2 writeEx1 writeEx2
     "capacity:score:AAPL" rfl⟩

/-! ## Claim C10 -/

/-- C10, counterexample to the claim as stated: the conclusion "the
written record is never found by the Read Service's enrichment join"
fails.  The subscriber does write the record for ticker `aapl` under
`capacity:score:aapl` verbatim (second conjunct); but the repository read
path — the only code that would force an uppercased join ticker — always
returns `None` (dead query, see the `QuoteRepository` section), so every
joining read serves a cached payload and joins on that payload's
`ticker` field verbatim.  With a cached latest payload whose ticker is
`aapl`, the read for AAPL finds the record written for the non-uppercase
ticker and returns its score. -/
theorem C10_counterexample :
    upStr "aapl" ≠ "aapl" ∧
    (CapacitySubscriber.processMessage
      (.obj { ticker := some "aapl", score := some (mkRat 17 20),
              confidence := some (mkRat 9 10),
              timestamp := some "2026-02-10T13:00:00Z",
              model_version := some "1.0.0" })).map CacheWrite.key =
      some "capacity:score:aapl" ∧
    envMixedCase.cacheGet "capacity:score:aapl" = some (.capJson capEx) ∧
    (QuoteService.getLatest envMixedCase "AAPL").1 =
      some { ticker := "aapl", timestamp := 1, close := 150, volume := 1000,
             capacity_context := some capEx } := by
  exact ⟨by decide, by decide, rfl, by decide⟩

/-- C10 (amended): the enrichment writer does not normalize ticker case —
a complete `capacity.scoring` message with ticker `tk` is cached under
`capacity:score:<tk>` verbatim — and a join performed with an uppercased
ticker can never find a record whose ticker is not entirely uppercase;
but the repository read path, the only code that would guarantee
uppercased join tickers, returns `None` for every input (its query is
dead), so the joins the program actually performs use the cache-served
quote's ticker verbatim and can find such a record. -/
theorem C10_ticker_case_mismatch :
    (∀ (tk : String) (sc cf : ℚ) (ts mv : String),
      (CapacitySubscriber.processMessage
        (.obj { ticker := some tk, score := some sc, confidence := some cf,
                timestamp := some ts, model_version := some mv })).map
          CacheWrite.key = some ("capacity:score:" ++ tk)) ∧
    (∀ (db : Except Unit (List Row)) (s : String),
      QuoteRepository.getLatest db s = none) ∧
    (∀ tk : String, upStr tk ≠ tk →
      ∀ s : String, "capacity:score:" ++ tk ≠ "capacity:score:" ++ upStr s) := by
  refine ⟨fun tk sc cf ts mv => rfl, fun db s => rfl, ?_⟩
  intro tk hk s heq
  apply hk
  rw [string_append_cancel_left heq, upStr_idem]

/-- C10, witness: the key written for ticker `aapl` differs from the
uppercased join key for every request resolving to AAPL. -/
theorem C10_witness :
    upStr "aapl" ≠ "aapl" ∧
    ("capacity:score:" ++ "aapl") ≠ ("capacity:score:" ++ upStr "aapl") :=
  ⟨by decide, C10_ticker_case_mismatch.2.2 "aapl" (by decide) "aapl"⟩

end OpaQuotes
